import Mathlib

/-!
Shallow embedding of `src/timeline.py` (the layout pipeline of the
python_timeline repository).  Pixel quantities and times are modelled as
rationals; Python `None` is modelled with `Option`; code that can raise a
Python exception returns `Except String`.  External collaborators (Scale,
Node, Force/Resolver, LayerRenderer) live in repository modules that are
not part of `src/`; where the pipeline needs them they are modelled from
the spec and marked as such in their doc comments.
-/

/-- Constant `DEFAULT_WIDTH = 50` (timeline.py line 43). -/
def DEFAULT_WIDTH : ℚ := 50

/-- Constant `TEXT_WIDTH_MULTI = 2` (timeline.py line 44). -/
def TEXT_WIDTH_MULTI : ℚ := 2

/-- Constant `TEXT_HEIGHT = 20` (timeline.py line 45). -/
def TEXT_HEIGHT : ℚ := 20

/-- The `width` key of an input record: it may be absent, present with the
value `None`, or present with a number.  `d.get("width", default)` then
distinguishes all three cases. -/
inductive WidthField where
  | absent : WidthField
  | noneVal : WidthField
  | val : ℚ → WidthField
  deriving DecidableEq

/-- One input record (the dictionaries passed to `Timeline`).  `time` is the
value of the mandatory `"time"` key, already in the canonical (datetime)
representation: the normalization of bare dates/times at timeline.py lines
118-124 only converts between Python time types and is outside the claims,
so the time value is modelled by a single numeric type.  `text` models the
`"text"` key, with `none` for a missing key or a `None` value (both make the
default text accessor, lines 239-244, yield `None`).  `width` models the
`"width"` key. -/
structure PyDict where
  time : ℚ
  text : Option String
  width : WidthField
  deriving DecidableEq

/-- Python truthiness of an optional string: `None` and `""` are falsy,
every non-empty string is truthy. -/
def pyTruthy : Option String → Bool
  | none => false
  | some s => !s.isEmpty

/-- Python `d.get("width", None)` (timeline.py line 128). -/
def pyGetWidthOrNone (d : PyDict) : Option ℚ :=
  match d.width with
  | WidthField.val q => some q
  | _ => none

/-- Python `d.get("width", DEFAULT_WIDTH)` (timeline.py line 130). -/
def pyGetWidthOrDefault (d : PyDict) : Option ℚ :=
  match d.width with
  | WidthField.val q => some q
  | WidthField.noneVal => none
  | WidthField.absent => some DEFAULT_WIDTH

/-- An `Item` (timeline.py lines 47-73): the sized, time-positioned
representation of one input event.  `width` and `height` are `Option ℚ`
because the Python attributes can hold `None` (the constructor leaves
`width = None` when no width is given and the text is falsy).  The
pass-through rendering hints `output_mode`, `tex_fontsize`, `tex_preamble`
and `latexmk_options` (lines 54-57) are never read by the layout pipeline
and are not modelled. -/
structure Item where
  time : ℚ
  text : Option String
  width : Option ℚ
  height : Option ℚ
  data : PyDict
  deriving DecidableEq

/-- Length of the stored text as a rational (`len(self.text)`), used by
`get_text_dimensions`; only ever applied to a truthy text. -/
def textLenQ : Option String → ℚ
  | none => 0
  | some s => s.length

/-- `Item.__init__` (timeline.py lines 47-71): if the given width is `None`
and the text is truthy, the dimensions come from `get_text_dimensions`
(line 72-73: `len(text) * TEXT_WIDTH_MULTI` by `TEXT_HEIGHT`); otherwise the
width is kept as given and the height is the constant `13.0` (line 70). -/
def mkItem (time : ℚ) (width : Option ℚ) (text : Option String) (data : PyDict) : Item :=
  if width = none ∧ pyTruthy text then
    { time := time, text := text,
      width := some (textLenQ text * TEXT_WIDTH_MULTI),
      height := some TEXT_HEIGHT, data := data }
  else
    { time := time, text := text, width := width, height := some (13 : ℚ), data := data }

/-- Per-side label padding (the `labelPadding` option, timeline.py line 25). -/
structure Padding where
  left : ℚ
  right : ℚ
  top : ℚ
  bottom : ℚ

/-- Per-side margins (the `margin` option, timeline.py line 10). -/
structure Margin where
  left : ℚ
  right : ℚ
  top : ℚ
  bottom : ℚ

/-- A style option (dot color, link color, label background/text color,
border color): a constant value, a list, or a function of the record
(timeline.py lines 21-24 and 218-222). -/
inductive StyleOption where
  | strval : String → StyleOption
  | listval : List String → StyleOption
  | funcval : (PyDict → String) → StyleOption

/-- The slice of the `Timeline` options dictionary (timeline.py lines 9-41
merged with caller overrides, lines 91-93) that the layout pipeline reads.
`scale` models the external `TimeScale` object as an optional projection
function (callable at line 259); its internal domain/nice/range math is an
external collaborator.  `textFn` is `none` when the caller sets the option
to `None`, triggering the fallback at lines 241-243.  The `labella` entry
is a nested dictionary whose aliasing behaviour is modelled separately (see
`ModuleState` below); the remaining entries (`dotRadius`, tick and latex
hints, ...) are never read by the functions under proof. -/
structure Options where
  margin : Margin
  initialWidth : ℚ
  initialHeight : ℚ
  scale : Option (ℚ → ℚ)
  domain : Option (ℚ × ℚ)
  direction : String
  layerGap : ℚ
  timeFn : PyDict → ℚ
  textFn : Option (PyDict → Option String)
  dotColor : StyleOption
  labelBgColor : StyleOption
  labelTextColor : StyleOption
  linkColor : StyleOption
  borderColor : StyleOption
  labelPadding : Padding

namespace Timeline

/-- `Timeline.textFn` (timeline.py lines 239-244): with no configured
accessor, read the `"text"` key of the record (missing key gives `None`);
otherwise apply the configured accessor. -/
def textFn (opts : Options) (d : PyDict) : Option String :=
  match opts.textFn with
  | none => d.text
  | some f => f d

/-- The body of the `parse_items` loop for one record (timeline.py lines
116-138): apply the text accessor; with truthy text the width is
`d.get("width", None)`, otherwise `d.get("width", DEFAULT_WIDTH)`; then
construct the `Item`. -/
def parse_item (opts : Options) (d : PyDict) : Item :=
  let text := textFn opts d
  let width := if pyTruthy text then pyGetWidthOrNone d else pyGetWidthOrDefault d
  mkItem d.time width text d

/-- `Timeline.parse_items` (timeline.py lines 114-139). -/
def parse_items (opts : Options) (dicts : List PyDict) : List Item :=
  dicts.map (parse_item opts)

end Timeline

/-- Python `max` over a list of numbers: `None` (error) on the empty list,
otherwise the left fold of the binary maximum over the remaining elements
starting from the first. -/
def pyMax : List ℚ → Option ℚ
  | [] => none
  | a :: as => some (as.foldl max a)

/-- Sequence an option-valued function over a list (Python: evaluating a
generator whose elements may be `None` where a number is required). -/
def mapOpt (f : α → Option β) : List α → Option (List β)
  | [] => some []
  | a :: as =>
    match f a, mapOpt f as with
    | some b, some bs => some (b :: bs)
    | _, _ => none

namespace Timeline

/-- `Timeline.equal_heights` (timeline.py lines 102-106): take the maximum
of the heights of ALL items (line 103: `max(x.height for x in self.items)`),
then assign it to every item whose text is truthy.  An empty item list makes
`max` raise `ValueError`; a `None` height where a comparison is needed
raises `TypeError` (neither can occur for items built by `Item.__init__`,
which always sets a numeric height). -/
def equal_heights (items : List Item) : Except String (List Item) :=
  match mapOpt Item.height items with
  | none => Except.error "TypeError: NoneType is not comparable"
  | some hs =>
    match pyMax hs with
    | none => Except.error "ValueError: max() arg is an empty sequence"
    | some maxheight =>
      Except.ok (items.map (fun it =>
        if pyTruthy it.text then { it with height := some maxheight } else it))

/-- `Timeline.rotate_items` (timeline.py lines 108-112): when the direction
is `left` or `right`, swap width and height of every item whose text is
truthy; otherwise leave the list untouched. -/
def rotate_items (direction : String) (items : List Item) : List Item :=
  if direction = "left" ∨ direction = "right" then
    items.map (fun it =>
      if pyTruthy it.text then { it with height := it.width, width := it.height } else it)
  else items

end Timeline

/-- The names bound at module level in timeline.py: top-level imports
(lines 1-7: `datetime`, `math`, `os`, `Node`, `Force`, `TimeScale`,
`d3_extent`), the module constants (lines 9, 43-45) and the two classes
(lines 47, 88).  A free name inside a method body is looked up here at call
time; a name that is not in this list raises `NameError`. -/
def timelineModuleGlobals : List String :=
  ["datetime", "math", "os", "Node", "Force", "TimeScale", "d3_extent",
   "TIMELINE_DEFAULT_OPTIONS", "DEFAULT_WIDTH", "TEXT_WIDTH_MULTI", "TEXT_HEIGHT",
   "Item", "Timeline"]

/-- A `Node` (external, data-only contract, spec section 6): ideal
coordinate along the time axis, padded box extents `w`, `h`, the primary
dodge extent `width`, the post-layout fields `x`, `y`, `dx`, `dy`, `layer`,
and the wrapped `Item` as `data`. -/
structure Node where
  idealPos : ℚ
  w : ℚ
  h : ℚ
  width : ℚ
  x : ℚ
  y : ℚ
  dx : ℚ
  dy : ℚ
  layer : ℕ
  data : Item
  deriving DecidableEq

/-- Modelled from the spec: the `Node` constructor (external, spec section
6) is called as `Node(self.timePos(it.data), it.width, data=it)` at
timeline.py line 171.  Only `idealPos` and `data` matter for the claims:
`get_nodes` overwrites `w`, `h` and `width` (lines 173-188) before any node
is used, and `x`, `y`, `dx`, `dy`, `layer` are produced later by the
external layout stages, so all of these start at zero here.  The width hint
argument is received (it may be the Python `None`) but, being overwritten,
is not stored. -/
def mkNode (idealPosition : ℚ) (_widthHint : Option ℚ) (data : Item) : Node :=
  { idealPos := idealPosition, w := 0, h := 0, width := 0,
    x := 0, y := 0, dx := 0, dy := 0, layer := 0, data := data }

namespace Timeline

/-- `Timeline.timePos` (timeline.py lines 256-259): apply the configured
scale to the time accessor value, or return the accessor value unchanged
when the scale option is `None`. -/
def timePos (opts : Options) (thedict : PyDict) : ℚ :=
  match opts.scale with
  | none => opts.timeFn thedict
  | some s => s (opts.timeFn thedict)

/-- The second loop of `Timeline.get_nodes` (timeline.py lines 173-188) for
one node: set `node.w` to the item width plus left and right label padding
and `node.h` to the item height plus top and bottom label padding; then for
direction `left` or `right` execute `node.h, node.w = node.w, node.h`
followed by `node.width = node.h`, and otherwise `node.width = node.w`.
Reading `node.data.width + ...` with a `None` width (or height) raises
`TypeError` in Python. -/
def set_node_dims (opts : Options) (n : Node) : Except String Node :=
  match n.data.width, n.data.height with
  | some wv, some hv =>
    let w1 := wv + opts.labelPadding.left + opts.labelPadding.right
    let h1 := hv + opts.labelPadding.top + opts.labelPadding.bottom
    if opts.direction = "left" ∨ opts.direction = "right" then
      Except.ok { n with h := w1, w := h1, width := w1 }
    else
      Except.ok { n with w := w1, h := h1, width := w1 }
  | _, _ => Except.error "TypeError: unsupported operand type(s) for +"

/-- One item of `Timeline.get_nodes` (timeline.py lines 168-189):
`Node(self.timePos(it.data), it.width, data=it)` followed by the
dimension-setting loop body. -/
def get_node (opts : Options) (it : Item) : Except String Node :=
  set_node_dims opts (mkNode (timePos opts it.data) it.width it)

end Timeline

/-- Sequence an except-valued function over a list, stopping at the first
error (the behaviour of a Python `for` loop whose body may raise). -/
def mapExcept (f : α → Except String β) : List α → Except String (List β)
  | [] => Except.ok []
  | a :: as =>
    match f a, mapExcept f as with
    | Except.ok b, Except.ok bs => Except.ok (b :: bs)
    | Except.error e, _ => Except.error e
    | _, Except.error e => Except.error e

namespace Timeline

/-- `Timeline.get_nodes` (timeline.py lines 168-189).  The source first
builds every node (lines 169-172) and then sets the dimensions of every
node (lines 173-188); since the first loop cannot fail, processing the two
steps item by item is observationally the same list of nodes. -/
def get_nodes (opts : Options) (items : List Item) : Except String (List Node) :=
  mapExcept (get_node opts) items

end Timeline

/-- Modelled from the spec: the LayerRenderer (external collaborator,
spec sections 1, 2 and 6) is constructed with `{nodeHeight, layerGap,
direction}` (timeline.py lines 197-203). -/
structure Renderer where
  nodeHeight : ℚ
  layerGap : ℚ
  direction : String
  deriving DecidableEq

/-- Modelled from the spec: `Renderer.layout` (spec section 6) returns the
node list with layer and connector fields populated; its internal layering
math is explicitly outside the specified core (spec section 1), so the
fields are filled with placeholder values.  In `Timeline.compute` this
function sits on a branch that is unreachable because the name `Renderer`
is not among the timeline.py module bindings. -/
def Renderer.layout (_r : Renderer) (nodes : List Node) : List Node :=
  nodes.map (fun n => { n with layer := 0 })

/-- Modelled from the spec: the Resolver (`Force`, external collaborator,
spec sections 1 and 6) adjusts the primary-axis positions of the nodes; its
algorithm is outside the specified core, so it is modelled as placing every
node at its ideal position (the behaviour the spec requires for
non-conflicting nodes).  In `Timeline.compute` this function sits on a
branch that is unreachable because the name `Renderer` is not among the
timeline.py module bindings. -/
def forceResolve (nodes : List Node) : List Node :=
  nodes.map (fun n => { n with x := n.idealPos })

namespace Timeline

/-- `Timeline.compute` (timeline.py lines 191-210): materialize the nodes,
take the maximum of `n.w` (directions `left`/`right`) or `n.h` (otherwise)
over the nodes (`ValueError` on an empty list), then evaluate the global
name `Renderer`.  The imports of timeline.py (lines 1-7) bring in only
`Node`, `Force`, `TimeScale` and `d3_extent` and the module defines no
`Renderer`, so the lookup raises `NameError`; the rest of the pipeline
(first layout pass, Force resolution, second layout pass, returning the
resolved nodes with the renderer) is modelled from the spec on the
unreachable branch. -/
def compute (opts : Options) (items : List Item) : Except String (List Node × Renderer) :=
  match get_nodes opts items with
  | Except.error e => Except.error e
  | Except.ok nodes =>
    match pyMax (nodes.map (fun n =>
        if opts.direction = "left" ∨ opts.direction = "right" then n.w else n.h)) with
    | none => Except.error "ValueError: max() arg is an empty sequence"
    | some nodeHeight =>
      if "Renderer" ∈ timelineModuleGlobals then
        let renderer : Renderer :=
          { nodeHeight := nodeHeight, layerGap := opts.layerGap, direction := opts.direction }
        let nodes1 := renderer.layout nodes
        let newnodes := forceResolve nodes1
        Except.ok (renderer.layout newnodes, renderer)
      else
        Except.error "NameError: name Renderer is not defined"

/-- `Timeline.colorFunc` (timeline.py lines 218-222): a list-valued style
option is resolved by index modulo the list length (`ZeroDivisionError` on
an empty list).  Any other value is passed to the global name `d3_functor`,
which the imports of timeline.py (lines 1-7) do not bring in and the module
does not define, so the call raises `NameError`; the d3 functor behaviour
(a constant yields a constant function, a callable is applied to the
record, spec section 4.7) is modelled on the unreachable branch. -/
def colorFunc (opt : StyleOption) (thedict : PyDict) (i : ℕ) : Except String String :=
  match opt with
  | StyleOption.listval l =>
    if h : 0 < l.length then Except.ok (l.get ⟨i % l.length, Nat.mod_lt i h⟩)
    else Except.error "ZeroDivisionError: integer modulo by zero"
  | StyleOption.strval s =>
    if "d3_functor" ∈ timelineModuleGlobals then Except.ok s
    else Except.error "NameError: name d3_functor is not defined"
  | StyleOption.funcval f =>
    if "d3_functor" ∈ timelineModuleGlobals then Except.ok (f thedict)
    else Except.error "NameError: name d3_functor is not defined"

/-- `Timeline.nodePos` (timeline.py lines 246-254): the anchor coordinate
of a resolved node by direction.  The chain of `elif` branches has no final
`else`, so an unrecognized direction makes the Python function return
`None`, modelled by `Option.none`; the (unused) `nodeHeight` parameter of
the source is kept. -/
def nodePos (direction : String) (d : Node) (_nodeHeight : ℚ) : Option (ℚ × ℚ) :=
  if direction = "right" then some (d.x, d.y - d.dy / 2)
  else if direction = "left" then some (d.x - d.w + d.dx, d.y - d.dy / 2)
  else if direction = "up" then some (d.x - d.dx / 2, d.y)
  else if direction = "down" then some (d.x - d.dx / 2, d.y)
  else none

end Timeline

/-- Modelled from the spec: the projection performed by the default
`TimeScale()` instance (timeline.py line 13) is external (spec sections 1
and 6); none of the claims depends on its values, so the default
configuration carries an arbitrary concrete projection. -/
def defaultScaleFun : ℚ → ℚ := fun t => t

/-- The `TIMELINE_DEFAULT_OPTIONS` entries read by the layout pipeline
(timeline.py lines 9-41): margins of 20, initial canvas 400 by 400, a
`TimeScale` instance, no explicit domain, direction `right`, layer gap 60,
the default time and text accessors (lines 19-20), the five constant style
colors (lines 21-24 and 29), and label padding 2/2/3/2 (line 25). -/
def defaultOptions : Options :=
  { margin := { left := 20, right := 20, top := 20, bottom := 20 },
    initialWidth := 400,
    initialHeight := 400,
    scale := some defaultScaleFun,
    domain := none,
    direction := "right",
    layerGap := 60,
    timeFn := fun d => d.time,
    textFn := some (fun d => d.text),
    dotColor := StyleOption.strval "#222",
    labelBgColor := StyleOption.strval "#222",
    labelTextColor := StyleOption.strval "#fff",
    linkColor := StyleOption.strval "#222",
    borderColor := StyleOption.strval "#000",
    labelPadding := { left := 2, right := 2, top := 3, bottom := 2 } }

/-- Follows the words of the spec (sections 4.2 and 8): the heights of the
items that carry text, in list order; their maximum is the reference value
of the equal-heights pass in the claim. -/
def specTextualHeights (items : List Item) : List ℚ :=
  items.filterMap (fun it => if pyTruthy it.text then it.height else none)

/-- Follows the words of the spec: the maximum height among all textual
items (`none` when no item carries a numeric textual height). -/
def specMaxTextHeight (items : List Item) : Option ℚ :=
  pyMax (specTextualHeights items)

/-- The mutable `labella` dictionary nested in the options (timeline.py
line 18 and line 95); only its `direction` entry is ever written by
timeline.py. -/
structure LabellaDict where
  direction : Option String
  deriving DecidableEq

/-- A store of `labella` dictionary objects, addressed by allocation index:
Python dictionaries are heap objects, and `Timeline.__init__` copies the
default options only shallowly, so distinct option dictionaries can hold
the same `labella` object. -/
structure PyHeap where
  cells : List LabellaDict
  deriving DecidableEq

/-- Dereference a `labella` dictionary address. -/
def PyHeap.read (h : PyHeap) (a : ℕ) : Option LabellaDict :=
  h.cells.get? a

/-- Overwrite the `labella` dictionary at an address (in-place dictionary
mutation). -/
def PyHeap.write (h : PyHeap) (a : ℕ) (v : LabellaDict) : PyHeap :=
  { cells := h.cells.set a v }

/-- The module-level state of timeline.py that `Timeline.__init__`
touches: the heap of `labella` dictionaries and the address of the one
stored in `TIMELINE_DEFAULT_OPTIONS["labella"]` (line 18). -/
structure ModuleState where
  heap : PyHeap
  defaultLabellaAddr : ℕ
  deriving DecidableEq

/-- The module state right after timeline.py is imported: a single empty
`labella` dictionary, referenced by the module-level defaults. -/
def initModuleState : ModuleState :=
  { heap := { cells := [{ direction := none }] }, defaultLabellaAddr := 0 }

/-- The caller-supplied options entries that the modelled part of
`Timeline.__init__` (timeline.py lines 89-95) reads: an optional `labella`
dictionary (by address) and an optional `direction` override.  `update`
replaces exactly the entries the caller provides. -/
structure CallerOptions where
  labella : Option ℕ
  direction : Option String

/-- The per-instance result of `Timeline.__init__`: the address of the
`labella` dictionary held in `self.options` and `self.direction`. -/
structure TimelineRef where
  labellaAddr : ℕ
  direction : String
  deriving DecidableEq

/-- The option-merging prefix of `Timeline.__init__` (timeline.py lines
89-95).  Line 91 copies `TIMELINE_DEFAULT_OPTIONS` with a dictionary
comprehension: a SHALLOW copy, so the `labella` entry of the copy is the
same heap object as the module default.  Lines 92-93 overwrite the entries
the caller provides (an absent or empty caller dictionary changes
nothing).  Line 94 reads the merged `direction` (default `"right"`, line
15).  Line 95 executes `self.options["labella"]["direction"] =
self.direction`: an in-place write through whichever `labella` object the
merged options hold. -/
def timelineInitOptions (st : ModuleState) (caller : Option CallerOptions) :
    TimelineRef × ModuleState :=
  let labellaAddr :=
    match caller with
    | none => st.defaultLabellaAddr
    | some co => co.labella.getD st.defaultLabellaAddr
  let direction :=
    match caller with
    | none => "right"
    | some co => co.direction.getD "right"
  let heap1 :=
    match st.heap.read labellaAddr with
    | some cell => st.heap.write labellaAddr { cell with direction := some direction }
    | none => st.heap
  ({ labellaAddr := labellaAddr, direction := direction },
   { st with heap := heap1 })

/-- A sample record with a truthy text and an explicit width. -/
def demoRecTextWidth : PyDict := { time := 0, text := some "ab", width := WidthField.val 40 }

/-- A sample record with no text and no explicit width. -/
def demoRecPlain : PyDict := { time := 1, text := none, width := WidthField.absent }

/-- A sample record with a truthy text and no explicit width. -/
def demoRecText : PyDict := { time := 2, text := some "hello", width := WidthField.absent }

/-- A sample input list. -/
def demoRecs : List PyDict := [demoRecTextWidth, demoRecPlain, demoRecText]

/-- The item built from `demoRecText` under the default options: width
`len("hello") * 2 = 10`, height `20`. -/
def demoItem : Item := Timeline.parse_item defaultOptions demoRecText

/-- The item built from `demoRecTextWidth` under the default options:
width `40` as given, height `13`. -/
def demoItemW : Item := Timeline.parse_item defaultOptions demoRecTextWidth

/-- A sample node. -/
def demoNode : Node := mkNode 0 none demoItem

/-- The per-item height invariant established by `Item.__init__`
(timeline.py lines 67-70): the height is the constant `13`, or the item has
a truthy text and the height is `TEXT_HEIGHT = 20`. -/
def itemHeightInv (it : Item) : Prop :=
  it.height = some 13 ∨ (pyTruthy it.text = true ∧ it.height = some TEXT_HEIGHT)

lemma mkItem_inv (time : ℚ) (width : Option ℚ) (text : Option String) (data : PyDict) :
    itemHeightInv (mkItem time width text data) := by
  unfold mkItem itemHeightInv
  by_cases h : width = none ∧ pyTruthy text
  · rw [if_pos h]
    exact Or.inr ⟨h.2, rfl⟩
  · rw [if_neg h]
    exact Or.inl rfl

lemma parse_item_inv (opts : Options) (d : PyDict) :
    itemHeightInv (Timeline.parse_item opts d) :=
  mkItem_inv _ _ _ _

lemma pyMax_isSome {l : List ℚ} (h : l ≠ []) : ∃ m, pyMax l = some m := by
  cases l with
  | nil => exact absurd rfl h
  | cons a as => exact ⟨as.foldl max a, rfl⟩

lemma foldl_max_le (as : List ℚ) : ∀ a c : ℚ, as.foldl max a ≤ c ↔ a ≤ c ∧ ∀ b ∈ as, b ≤ c := by
  induction as with
  | nil => intro a c; simp
  | cons b bs ih =>
    intro a c
    simp only [List.foldl_cons, ih, max_le_iff, List.mem_cons]
    constructor
    · rintro ⟨⟨h1, h2⟩, h3⟩
      exact ⟨h1, fun x hx => hx.elim (fun e => e ▸ h2) (h3 x)⟩
    · rintro ⟨h1, h2⟩
      exact ⟨⟨h1, h2 b (Or.inl rfl)⟩, fun x hx => h2 x (Or.inr hx)⟩

lemma foldl_max_mem (as : List ℚ) : ∀ a : ℚ, as.foldl max a = a ∨ as.foldl max a ∈ as := by
  induction as with
  | nil => intro a; simp
  | cons b bs ih =>
    intro a
    simp only [List.foldl_cons, List.mem_cons]
    rcases ih (max a b) with h | h
    · rcases max_choice a b with hm | hm
      · exact Or.inl (h.trans hm)
      · exact Or.inr (Or.inl (h.trans hm))
    · exact Or.inr (Or.inr h)

lemma pyMax_mem {l : List ℚ} {m : ℚ} (h : pyMax l = some m) : m ∈ l := by
  cases l with
  | nil => exact absurd h (by simp [pyMax])
  | cons a as =>
    simp only [pyMax, Option.some.injEq] at h
    subst h
    rcases foldl_max_mem as a with h | h
    · rw [h]; exact List.mem_cons_self a as
    · exact List.mem_cons_of_mem a h

lemma pyMax_ub {l : List ℚ} {m : ℚ} (h : pyMax l = some m) : ∀ b ∈ l, b ≤ m := by
  cases l with
  | nil => exact absurd h (by simp [pyMax])
  | cons a as =>
    simp only [pyMax, Option.some.injEq] at h
    subst h
    intro b hb
    have hrefl : as.foldl max a ≤ as.foldl max a := le_refl _
    rw [foldl_max_le] at hrefl
    rcases List.mem_cons.mp hb with e | e
    · exact e ▸ hrefl.1
    · exact hrefl.2 b e

lemma pyMax_eq_some_of {l : List ℚ} {m : ℚ} (hm : m ∈ l) (hub : ∀ b ∈ l, b ≤ m) :
    pyMax l = some m := by
  cases l with
  | nil => exact absurd hm (by simp)
  | cons a as =>
    have h1 : pyMax (a :: as) = some (as.foldl max a) := rfl
    have hmem := pyMax_mem h1
    have hub2 := pyMax_ub h1
    rw [h1]
    exact congrArg some (le_antisymm (hub2 m hm) (hub _ hmem)).symm

lemma mapOpt_mem_iff {f : α → Option β} :
    ∀ {l : List α} {bs : List β}, mapOpt f l = some bs →
      ∀ b : β, b ∈ bs ↔ ∃ a ∈ l, f a = some b := by
  intro l
  induction l with
  | nil =>
    intro bs h b
    simp only [mapOpt, Option.some.injEq] at h
    subst h
    simp
  | cons a as ih =>
    intro bs h b
    simp only [mapOpt] at h
    cases hfa : f a with
    | none => rw [hfa] at h; exact absurd h (by simp)
    | some b0 =>
      cases hrest : mapOpt f as with
      | none => rw [hfa, hrest] at h; exact absurd h (by simp)
      | some bs0 =>
        rw [hfa, hrest] at h
        simp only [Option.some.injEq] at h
        subst h
        simp only [List.mem_cons]
        constructor
        · rintro (e | hmem)
          · exact ⟨a, Or.inl rfl, e ▸ hfa⟩
          · obtain ⟨a2, ha2, hfa2⟩ := (ih hrest b).mp hmem
            exact ⟨a2, Or.inr ha2, hfa2⟩
        · rintro ⟨a2, ha2 | ha2, hfa2⟩
          · subst ha2
            rw [hfa] at hfa2
            exact Or.inl (Option.some.inj hfa2).symm
          · exact Or.inr ((ih hrest b).mpr ⟨a2, ha2, hfa2⟩)

lemma mapOpt_eq_some_of_forall {f : α → Option β} :
    ∀ {l : List α}, (∀ a ∈ l, ∃ b, f a = some b) → ∃ bs, mapOpt f l = some bs := by
  intro l
  induction l with
  | nil => intro _; exact ⟨[], rfl⟩
  | cons a as ih =>
    intro h
    obtain ⟨b, hb⟩ := h a (List.mem_cons_self a as)
    obtain ⟨bs, hbs⟩ := ih (fun x hx => h x (List.mem_cons_of_mem a hx))
    exact ⟨b :: bs, by simp only [mapOpt, hb, hbs]⟩

lemma mapOpt_some_length {f : α → Option β} :
    ∀ {l : List α} {bs : List β}, mapOpt f l = some bs → bs.length = l.length := by
  intro l
  induction l with
  | nil =>
    intro bs h
    simp only [mapOpt, Option.some.injEq] at h
    subst h; rfl
  | cons a as ih =>
    intro bs h
    simp only [mapOpt] at h
    cases hfa : f a with
    | none => rw [hfa] at h; exact absurd h (by simp)
    | some b0 =>
      cases hrest : mapOpt f as with
      | none => rw [hfa, hrest] at h; exact absurd h (by simp)
      | some bs0 =>
        rw [hfa, hrest] at h
        simp only [Option.some.injEq] at h
        subst h
        simp [ih hrest]

lemma mapExcept_ok_length {f : α → Except String β} :
    ∀ {l : List α} {bs : List β}, mapExcept f l = Except.ok bs → bs.length = l.length := by
  intro l
  induction l with
  | nil =>
    intro bs h
    simp only [mapExcept, Except.ok.injEq] at h
    subst h; rfl
  | cons a as ih =>
    intro bs h
    simp only [mapExcept] at h
    cases hfa : f a with
    | error e => rw [hfa] at h; exact absurd h (by simp)
    | ok b =>
      cases hrest : mapExcept f as with
      | error e => rw [hfa, hrest] at h; exact absurd h (by simp)
      | ok bs0 =>
        rw [hfa, hrest] at h
        simp only [Except.ok.injEq] at h
        subst h
        simp [ih hrest]

lemma allMax_eq_textualMax {items : List Item} {hs : List ℚ} {m : ℚ}
    (hinv : ∀ it ∈ items, itemHeightInv it)
    (hmap : mapOpt Item.height items = some hs)
    (hmax : pyMax hs = some m)
    {it0 : Item} (hit0 : it0 ∈ items) (ht0 : pyTruthy it0.text = true) :
    specMaxTextHeight items = some m := by
  have hmem_iff := mapOpt_mem_iff hmap
  have hm_hs : m ∈ hs := pyMax_mem hmax
  have hub : ∀ b ∈ hs, b ≤ m := pyMax_ub hmax
  have hsub : ∀ b ∈ specTextualHeights items, b ∈ hs := by
    intro b hb
    rw [specTextualHeights, List.mem_filterMap] at hb
    obtain ⟨it, hit, hfit⟩ := hb
    by_cases ht : pyTruthy it.text
    · rw [if_pos ht] at hfit
      exact (hmem_iff b).mpr ⟨it, hit, hfit⟩
    · rw [if_neg ht] at hfit
      exact absurd hfit (by simp)
  have hm_tex : m ∈ specTextualHeights items := by
    obtain ⟨it, hit, hfit⟩ := (hmem_iff m).mp hm_hs
    rw [specTextualHeights, List.mem_filterMap]
    rcases hinv it hit with h13 | ⟨htex, h20⟩
    · rw [h13] at hfit
      have hm13 : m = 13 := (Option.some.inj hfit).symm
      rcases hinv it0 hit0 with h13b | ⟨_, h20b⟩
      · exact ⟨it0, hit0, by rw [if_pos ht0, h13b, hm13]⟩
      · have h20hs : TEXT_HEIGHT ∈ hs := (hmem_iff TEXT_HEIGHT).mpr ⟨it0, hit0, h20b⟩
        have := hub TEXT_HEIGHT h20hs
        rw [hm13] at this
        exact absurd this (by norm_num [TEXT_HEIGHT])
    · rw [h20] at hfit
      have hm20 : m = TEXT_HEIGHT := (Option.some.inj hfit).symm
      exact ⟨it, hit, by rw [if_pos htex, h20, hm20]⟩
  exact pyMax_eq_some_of hm_tex (fun b hb => hub b (hsub b hb))

lemma read_write_self {h : PyHeap} {a : ℕ} {cell : LabellaDict} (v : LabellaDict)
    (hread : h.read a = some cell) : (h.write a v).read a = some v := by
  unfold PyHeap.read PyHeap.write at *
  have hlt : a < h.cells.length := by
    by_contra hge
    rw [List.get?_eq_none.mpr (le_of_not_lt hge)] at hread
    cases hread
  simpa using List.get?_set_eq_of_lt v hlt

/-- C2 counterexample: the claim states that a record with a truthy text
and an explicit width yields an item of height `TEXT_HEIGHT = 20`; under
the default options the record with text `"ab"` and width `40` yields the
given width but height `13`, because `Item.__init__` only derives text
dimensions when NO width is given (timeline.py lines 67-70). -/
theorem item_text_given_width_height_is_13_not_20 :
    (Timeline.parse_item defaultOptions demoRecTextWidth).width = some 40 ∧
    (Timeline.parse_item defaultOptions demoRecTextWidth).height = some 13 ∧
    (Timeline.parse_item defaultOptions demoRecTextWidth).height ≠ some TEXT_HEIGHT := by
  refine ⟨rfl, rfl, ?_⟩
  decide

/-- C2 (amended): for every record whose text accessor yields a truthy text
and that carries an explicit numeric width, the constructed item has the
given width and height equal to the fixed constant `13` (timeline.py lines
126-137 and 67-70). -/
theorem item_text_given_width_has_height_13 (opts : Options) (d : PyDict) (w : ℚ)
    (ht : pyTruthy (Timeline.textFn opts d) = true) (hw : d.width = WidthField.val w) :
    (Timeline.parse_item opts d).width = some w ∧
    (Timeline.parse_item opts d).height = some 13 := by
  have h1 : pyGetWidthOrNone d = some w := by rw [pyGetWidthOrNone, hw]
  simp only [Timeline.parse_item, ht, if_true, h1, mkItem]
  rw [if_neg (by simp)]
  exact ⟨rfl, rfl⟩

/-- C2 witness: the amended claim applies to the sample record. -/
theorem item_text_given_width_has_height_13_witness :
    (Timeline.parse_item defaultOptions demoRecTextWidth).width = some 40 ∧
    (Timeline.parse_item defaultOptions demoRecTextWidth).height = some 13 :=
  item_text_given_width_has_height_13 defaultOptions demoRecTextWidth 40 rfl rfl

/-- C3: for any direction outside left/right/up/down, `Timeline.nodePos`
silently returns `None` (timeline.py lines 246-254 have no final else
branch); the claim and spec section 7 require a named invalid-configuration
error instead, so this is a defect of the code. -/
theorem nodePos_returns_none_for_unknown_direction (dir : String) (d : Node) (nh : ℚ)
    (h : dir ∉ (["left", "right", "up", "down"] : List String)) :
    Timeline.nodePos dir d nh = none := by
  have h1 : ¬dir = "right" := fun e => h (by simp [e])
  have h2 : ¬dir = "left" := fun e => h (by simp [e])
  have h3 : ¬dir = "up" := fun e => h (by simp [e])
  have h4 : ¬dir = "down" := fun e => h (by simp [e])
  rw [Timeline.nodePos, if_neg h1, if_neg h2, if_neg h3, if_neg h4]

/-- C3 witness: the direction `"diagonal"` silently yields `None`. -/
theorem nodePos_returns_none_for_unknown_direction_witness :
    Timeline.nodePos "diagonal" demoNode 0 = none :=
  nodePos_returns_none_for_unknown_direction "diagonal" demoNode 0 (by decide)

/-- C4: a style channel configured as a single constant value never reaches
the claimed constant-return behaviour: the non-list branch of
`Timeline.colorFunc` (timeline.py lines 221-222) calls the global name
`d3_functor`, which the module imports (lines 1-7) do not bind, so every
such call raises `NameError` instead of returning the constant. -/
theorem colorFunc_constant_raises_nameerror_d3_functor (s : String) (d : PyDict) (i : ℕ) :
    Timeline.colorFunc (StyleOption.strval s) d i =
      Except.error "NameError: name d3_functor is not defined" := by
  rw [Timeline.colorFunc, if_neg (by decide)]

/-- C5: for every non-empty input list, after the equal-heights pass every
item whose text is truthy has height equal to the maximum height among all
textual items, and every item without text is unchanged (timeline.py lines
102-106; the maximum taken there over ALL items coincides with the maximum
over textual items because `Item.__init__` gives non-textual items the
minimal height 13). -/
theorem equal_heights_textual_items_get_max_textual_height
    (opts : Options) (recs : List PyDict) (hne : recs ≠ []) :
    Timeline.equal_heights (Timeline.parse_items opts recs) =
      Except.ok ((Timeline.parse_items opts recs).map (fun it =>
        if pyTruthy it.text then
          { it with height := specMaxTextHeight (Timeline.parse_items opts recs) }
        else it)) := by
  set items := Timeline.parse_items opts recs with hitems
  have hinv : ∀ it ∈ items, itemHeightInv it := by
    intro it hit
    rw [hitems, Timeline.parse_items] at hit
    obtain ⟨d, _, rfl⟩ := List.mem_map.mp hit
    exact parse_item_inv opts d
  have hall : ∀ it ∈ items, ∃ b, Item.height it = some b := by
    intro it hit
    rcases hinv it hit with h | ⟨_, h⟩ <;> exact ⟨_, h⟩
  obtain ⟨hs, hmap⟩ := mapOpt_eq_some_of_forall hall
  have hs_ne : hs ≠ [] := by
    intro e
    have hlen := mapOpt_some_length hmap
    rw [e] at hlen
    have : items = [] := List.length_eq_zero.mp hlen.symm
    rw [hitems, Timeline.parse_items] at this
    exact hne (List.map_eq_nil.mp this)
  obtain ⟨m, hmax⟩ := pyMax_isSome hs_ne
  simp only [Timeline.equal_heights, hmap, hmax]
  congr 1
  apply List.map_congr_left
  intro it hit
  by_cases ht : pyTruthy it.text
  · rw [if_pos ht, if_pos ht, allMax_eq_textualMax hinv hmap hmax hit ht]
  · rw [if_neg ht, if_neg ht]

/-- C5 witness: the equal-heights claim applied to the sample records. -/
theorem equal_heights_textual_items_get_max_textual_height_witness :
    Timeline.equal_heights (Timeline.parse_items defaultOptions demoRecs) =
      Except.ok ((Timeline.parse_items defaultOptions demoRecs).map (fun it =>
        if pyTruthy it.text then
          { it with height := specMaxTextHeight (Timeline.parse_items defaultOptions demoRecs) }
        else it)) :=
  equal_heights_textual_items_get_max_textual_height defaultOptions demoRecs
    (List.cons_ne_nil _ _)

/-- C6: for direction left or right, `Timeline.rotate_items` maps every
textual item to the item with width and height exchanged and leaves items
without text unchanged; for directions up and down the list is unchanged
(timeline.py lines 108-112). -/
theorem rotate_items_swaps_width_height_for_left_right (dir : String) (items : List Item) :
    ((dir = "left" ∨ dir = "right") →
      ∀ i : ℕ, (Timeline.rotate_items dir items).get? i =
        (items.get? i).map (fun it =>
          if pyTruthy it.text then
            { it with width := it.height, height := it.width }
          else it)) ∧
    ((dir = "up" ∨ dir = "down") → Timeline.rotate_items dir items = items) := by
  constructor
  · intro h i
    rw [Timeline.rotate_items, if_pos h, List.get?_map]
  · intro h
    rw [Timeline.rotate_items, if_neg (by rcases h with h | h <;> subst h <;> decide)]

/-- C6 witness: the rotation claim at direction `"left"` on a sample item,
and the unchanged case at direction `"up"`. -/
theorem rotate_items_swaps_width_height_for_left_right_witness :
    (Timeline.rotate_items "left" [demoItemW]).get? 0 =
      some { demoItemW with width := demoItemW.height, height := demoItemW.width } ∧
    Timeline.rotate_items "up" [demoItemW] = [demoItemW] := by
  constructor
  · have h := (rotate_items_swaps_width_height_for_left_right "left" [demoItemW]).1
      (Or.inl rfl) 0
    rw [h]
    decide
  · exact (rotate_items_swaps_width_height_for_left_right "up" [demoItemW]).2 (Or.inl rfl)

/-- C7: for every item with numeric width and height and a configured
scale, `Timeline.get_node` places the node at the scale projection of the
item time and gives it the padded extents; for direction left or right the
padded pair is swapped into `(w, h)` and `node.width` equals the post-swap
`h`, which is the padded item width; otherwise `node.width` equals `node.w`
(timeline.py lines 168-189 and 256-259). -/
theorem get_node_padded_size_and_projection (opts : Options) (it : Item) (wv hv : ℚ)
    (sc : ℚ → ℚ) (hw : it.width = some wv) (hh : it.height = some hv)
    (hsc : opts.scale = some sc) :
    ∃ n : Node, Timeline.get_node opts it = Except.ok n ∧
      n.idealPos = sc (opts.timeFn it.data) ∧ n.data = it ∧
      ((opts.direction = "left" ∨ opts.direction = "right") →
        n.h = wv + opts.labelPadding.left + opts.labelPadding.right ∧
        n.w = hv + opts.labelPadding.top + opts.labelPadding.bottom ∧
        n.width = n.h ∧
        n.width = wv + opts.labelPadding.left + opts.labelPadding.right) ∧
      (¬(opts.direction = "left" ∨ opts.direction = "right") →
        n.w = wv + opts.labelPadding.left + opts.labelPadding.right ∧
        n.h = hv + opts.labelPadding.top + opts.labelPadding.bottom ∧
        n.width = n.w) := by
  unfold Timeline.get_node Timeline.set_node_dims mkNode Timeline.timePos
  rw [hsc]
  simp only [hw, hh]
  by_cases hd : opts.direction = "left" ∨ opts.direction = "right"
  · rw [if_pos hd]
    exact ⟨_, rfl, rfl, rfl, fun _ => ⟨rfl, rfl, rfl, rfl⟩, fun h => absurd hd h⟩
  · rw [if_neg hd]
    exact ⟨_, rfl, rfl, rfl, fun h => absurd h hd, fun _ => ⟨rfl, rfl, rfl⟩⟩

/-- C7 witness: the node claim applied to the sample item of width 40 and
height 13 under the default options. -/
theorem get_node_padded_size_and_projection_witness :
    ∃ n : Node, Timeline.get_node defaultOptions demoItemW = Except.ok n ∧
      n.idealPos = defaultScaleFun (defaultOptions.timeFn demoItemW.data) ∧
      n.data = demoItemW ∧
      ((defaultOptions.direction = "left" ∨ defaultOptions.direction = "right") →
        n.h = 40 + defaultOptions.labelPadding.left + defaultOptions.labelPadding.right ∧
        n.w = 13 + defaultOptions.labelPadding.top + defaultOptions.labelPadding.bottom ∧
        n.width = n.h ∧
        n.width = 40 + defaultOptions.labelPadding.left + defaultOptions.labelPadding.right) ∧
      (¬(defaultOptions.direction = "left" ∨ defaultOptions.direction = "right") →
        n.w = 40 + defaultOptions.labelPadding.left + defaultOptions.labelPadding.right ∧
        n.h = 13 + defaultOptions.labelPadding.top + defaultOptions.labelPadding.bottom ∧
        n.width = n.w) :=
  get_node_padded_size_and_projection defaultOptions demoItemW 40 13 defaultScaleFun
    rfl rfl rfl

/-- C8: for every resolved node, `Timeline.nodePos` yields
`(x, y - dy/2)` for direction right, `(x - w + dx, y - dy/2)` for left, and
`(x - dx/2, y)` for up and for down (timeline.py lines 246-254). -/
theorem nodePos_anchor_formulas_by_direction (d : Node) (nh : ℚ) :
    Timeline.nodePos "right" d nh = some (d.x, d.y - d.dy / 2) ∧
    Timeline.nodePos "left" d nh = some (d.x - d.w + d.dx, d.y - d.dy / 2) ∧
    Timeline.nodePos "up" d nh = some (d.x - d.dx / 2, d.y) ∧
    Timeline.nodePos "down" d nh = some (d.x - d.dx / 2, d.y) := by
  refine ⟨rfl, ?_, ?_, ?_⟩ <;>
    · rw [Timeline.nodePos]
      repeat rw [if_neg (by decide)]
      rw [if_pos rfl]

/-- C9: a style channel configured as a list of length `n` resolves to the
element at index `i % n` for every index `i` (timeline.py lines 218-220). -/
theorem colorFunc_list_resolves_index_modulo_length (l : List String) (d : PyDict)
    (i : ℕ) (h : l ≠ []) :
    Timeline.colorFunc (StyleOption.listval l) d i =
      Except.ok (l.get ⟨i % l.length, Nat.mod_lt i (List.length_pos.mpr h)⟩) := by
  rw [Timeline.colorFunc, dif_pos (List.length_pos.mpr h)]

/-- C9 witness: with a 3-element list and index 4 the element at index
`4 % 3 = 1` is returned. -/
theorem colorFunc_list_resolves_index_modulo_length_witness :
    Timeline.colorFunc (StyleOption.listval ["#e41", "#377", "#4da"]) demoRecPlain 4 =
      Except.ok "#377" := by
  rw [colorFunc_list_resolves_index_modulo_length ["#e41", "#377", "#4da"] demoRecPlain 4
    (List.cons_ne_nil _ _)]
  rfl

/-- C1: `Timeline.compute` never returns the resolved node list with the
renderer: for every non-empty item list whose nodes materialize, the
evaluation of the global name `Renderer` at timeline.py line 197 raises
`NameError`, because the imports of timeline.py (lines 1-7) never bind
`Renderer`. -/
theorem compute_raises_nameerror_for_missing_renderer (opts : Options)
    (items : List Item) (hne : items ≠ [])
    (hok : ∃ ns, Timeline.get_nodes opts items = Except.ok ns) :
    Timeline.compute opts items =
      Except.error "NameError: name Renderer is not defined" := by
  obtain ⟨ns, hok⟩ := hok
  have hlen : ns.length = items.length := mapExcept_ok_length hok
  have hns : ns ≠ [] := by
    intro e
    rw [e] at hlen
    exact hne (List.length_eq_zero.mp hlen.symm)
  rw [Timeline.compute, hok]
  cases ns with
  | nil => exact absurd rfl hns
  | cons a as =>
    simp only [List.map_cons, pyMax]
    rw [if_neg (by decide)]

/-- C1 witness: the compute claim applied to the items parsed from the
sample records under the default options. -/
theorem compute_raises_nameerror_for_missing_renderer_witness :
    Timeline.compute defaultOptions (Timeline.parse_items defaultOptions demoRecs) =
      Except.error "NameError: name Renderer is not defined" :=
  compute_raises_nameerror_for_missing_renderer defaultOptions
    (Timeline.parse_items defaultOptions demoRecs)
    (by simp [Timeline.parse_items, demoRecs]) ⟨_, rfl⟩

lemma timelineInit_omit_labella (st : ModuleState) (cell : LabellaDict) (d : String)
    (hv : st.heap.read st.defaultLabellaAddr = some cell) :
    (timelineInitOptions st (some { labella := none, direction := some d })).1.labellaAddr
        = st.defaultLabellaAddr ∧
    (timelineInitOptions st (some { labella := none, direction := some d })).2.defaultLabellaAddr
        = st.defaultLabellaAddr ∧
    (timelineInitOptions st (some { labella := none, direction := some d })).2.heap.read
        st.defaultLabellaAddr = some { cell with direction := some d } := by
  refine ⟨rfl, rfl, ?_⟩
  simp only [timelineInitOptions, Option.getD, hv]
  exact read_write_self _ hv

/-- C10: constructing a timeline whose caller options omit the `labella`
key makes `self.options["labella"]` alias the module-level default
dictionary (the line 91 copy is shallow), so the line 95 write stores the
direction of the new instance into `TIMELINE_DEFAULT_OPTIONS["labella"]`;
the mutation is visible in the module defaults and every subsequently
constructed timeline that also omits `labella` aliases (and rewrites) the
same shared dictionary (timeline.py lines 9-41 and 89-95). -/
theorem timeline_init_writes_direction_into_shared_default_labella
    (st : ModuleState) (cell : LabellaDict) (d1 d2 : String)
    (hv : st.heap.read st.defaultLabellaAddr = some cell) :
    (timelineInitOptions st (some { labella := none, direction := some d1 })).1.labellaAddr
        = st.defaultLabellaAddr ∧
    (timelineInitOptions st (some { labella := none, direction := some d1 })).2.defaultLabellaAddr
        = st.defaultLabellaAddr ∧
    (timelineInitOptions st (some { labella := none, direction := some d1 })).2.heap.read
        st.defaultLabellaAddr = some { cell with direction := some d1 } ∧
    ((timelineInitOptions
        ((timelineInitOptions st (some { labella := none, direction := some d1 })).2)
        (some { labella := none, direction := some d2 })).1.labellaAddr
        = st.defaultLabellaAddr ∧
     (timelineInitOptions
        ((timelineInitOptions st (some { labella := none, direction := some d1 })).2)
        (some { labella := none, direction := some d2 })).2.heap.read
        st.defaultLabellaAddr = some { cell with direction := some d2 }) := by
  obtain ⟨e1, e2, e3⟩ := timelineInit_omit_labella st cell d1 hv
  have hv1 : (timelineInitOptions st (some { labella := none, direction := some d1 })).2.heap.read
      (timelineInitOptions st (some { labella := none, direction := some d1 })).2.defaultLabellaAddr
      = some { cell with direction := some d1 } := by rw [e2]; exact e3
  obtain ⟨f1, f2, f3⟩ :=
    timelineInit_omit_labella _ { cell with direction := some d1 } d2 hv1
  refine ⟨e1, e2, e3, ?_, ?_⟩
  · rw [f1, e2]
  · rw [← e2]; exact f3

/-- C10 witness: the aliasing claim applied to the freshly imported module
state with two subsequent constructions. -/
theorem timeline_init_writes_direction_into_shared_default_labella_witness :
    (timelineInitOptions initModuleState
        (some { labella := none, direction := some "down" })).1.labellaAddr = 0 ∧
    (timelineInitOptions initModuleState
        (some { labella := none, direction := some "down" })).2.defaultLabellaAddr = 0 ∧
    (timelineInitOptions initModuleState
        (some { labella := none, direction := some "down" })).2.heap.read 0 =
      some { direction := some "down" } ∧
    ((timelineInitOptions
        ((timelineInitOptions initModuleState
          (some { labella := none, direction := some "down" })).2)
        (some { labella := none, direction := some "up" })).1.labellaAddr = 0 ∧
     (timelineInitOptions
        ((timelineInitOptions initModuleState
          (some { labella := none, direction := some "down" })).2)
        (some { labella := none, direction := some "up" })).2.heap.read 0 =
      some { direction := some "up" }) :=
  timeline_init_writes_direction_into_shared_default_labella initModuleState
    { direction := none } "down" "up" rfl
